import Mathlib

/-!
Verification of the chat message fan-out and cache-invalidation core of the
Web_Chat-App repository.

The development shallowly embeds, in Lean:
- the in-memory message store of `src/server/storage.ts` (`MemStorage`):
  JavaScript `Map` values iterate in insertion order, so the map of chat
  messages is modelled as a list in insertion order together with the
  `currentChatId` counter; `getChatMessages` sorts by timestamp with the
  stable ECMAScript `Array.prototype.sort`, modelled by the stable
  `List.insertionSort` on the timestamp order;
- the HTTP handlers of `src/server/routes.ts` (`GET /api/chat`,
  `POST /api/chat`, `DELETE /api/chat`, `DELETE /api/chat/user`,
  `GET /api/users`) as state transformers over a `ServerState`; calls into
  external services (Redis, the store backend, RabbitMQ) that may throw are
  driven by boolean fault flags in a request environment `ReqEnv`, and a
  thrown error propagates to the handler's `catch` block exactly as in the
  source;
- the WebSocket broadcast loop (`wss.clients.forEach` guarded by
  `readyState === WebSocket.OPEN`).

Timestamps are modelled as natural numbers (milliseconds since epoch);
`new Date()` at insertion time becomes an explicit `now` argument supplied by
the caller, nondecreasing across calls when real time is.
-/

/-- A chat message row (`chat_messages` table / `ChatMessage` type of
`shared/schema.ts`): id, user_id, content, timestamp. -/
structure ChatMessage where
  id : Nat
  userId : Nat
  content : String
  timestamp : Nat
deriving DecidableEq, Repr

/-- The chat-message part of `MemStorage` in `src/server/storage.ts`:
`chatMessages : Map<number, ChatMessage>` (values listed in insertion order)
and the `currentChatId` counter. -/
structure MemStorage where
  chatMessages : List ChatMessage
  currentChatId : Nat
deriving DecidableEq, Repr

/-- The storage constructor starts with no messages and `currentChatId = 1`. -/
def MemStorage.empty : MemStorage := ⟨[], 1⟩

/-- The comparator `(a, b) => new Date(a.timestamp) - new Date(b.timestamp)`
used by `getChatMessages`, as a binary relation on messages. -/
def tsLE (a b : ChatMessage) : Prop := a.timestamp ≤ b.timestamp

instance : DecidableRel tsLE := fun a b => Nat.decLe a.timestamp b.timestamp

instance : IsTotal ChatMessage tsLE := ⟨fun a b => Nat.le_total a.timestamp b.timestamp⟩

instance : IsTrans ChatMessage tsLE := ⟨fun _ _ _ h1 h2 => Nat.le_trans h1 h2⟩

/-- `MemStorage.getChatMessages`: `Array.from(map.values()).sort(byTimestamp)`.
ECMAScript sort is stable, so it is the stable insertion sort on `tsLE`. -/
def MemStorage.getChatMessages (s : MemStorage) : List ChatMessage :=
  List.insertionSort tsLE s.chatMessages

/-- `MemStorage.createChatMessage`: assigns `id = currentChatId++` and
`timestamp = new Date()` (the current time `now`), stores the message, and
returns it. -/
def MemStorage.createChatMessage (s : MemStorage) (userId : Nat) (content : String)
    (now : Nat) : ChatMessage × MemStorage :=
  let m : ChatMessage := ⟨s.currentChatId, userId, content, now⟩
  (m, ⟨s.chatMessages ++ [m], s.currentChatId + 1⟩)

/-- `MemStorage.clearChatMessages`: `this.chatMessages.clear()`. -/
def MemStorage.clearChatMessages (s : MemStorage) : MemStorage :=
  ⟨[], s.currentChatId⟩

/-- `MemStorage.deleteUserChatMessages`: deletes every entry whose
`userId` matches; `Map` deletion keeps the remaining insertion order. -/
def MemStorage.deleteUserChatMessages (s : MemStorage) (userId : Nat) : MemStorage :=
  ⟨s.chatMessages.filter (fun m => m.userId != userId), s.currentChatId⟩

/-- A stored user record (`users` table of `shared/schema.ts`). -/
structure User where
  id : Nat
  username : String
  password : String
  email : String
deriving DecidableEq, Repr

/-- A user record with the `password` field removed, as produced by the
destructuring `({ password, ...user }) => user` in `GET /api/users`. -/
structure SafeUser where
  id : Nat
  username : String
  email : String
deriving DecidableEq, Repr

/-- The per-record map `({ password, ...user }) => user`. -/
def stripPassword (u : User) : SafeUser := ⟨u.id, u.username, u.email⟩

/-- The `GET /api/users` handler body: `storage.getAllUsers()` returns the
stored user list, which the handler maps through `stripPassword`. -/
def getUsersHandler (users : List User) : List SafeUser :=
  users.map stripPassword

/-- The `content` field of an incoming request body as zod sees it: a JSON
string, absent, or some non-string JSON value. -/
inductive BodyContent where
  | absent
  | str (s : String)
  | other
deriving DecidableEq, Repr

/-- `insertChatMessageSchema.parse` of `shared/schema.ts`:
`createInsertSchema(chatMessages).pick(userId, content)` requires `userId` to
be a number (the handler always passes `req.user.id`, a number) and `content`
to be a string; `z.string()` accepts every string, including the empty one. -/
def insertChatMessageSchemaParse (userId : Nat) (content : BodyContent) :
    Option (Nat × String) :=
  match content with
  | .str s => some (userId, s)
  | _ => none

/-- `WebSocket.OPEN` readyState constant of the `ws` library. -/
def WebSocket.OPEN : Nat := 1

/-- One WebSocket client as seen by the broadcast loop: an identity and its
`readyState` (0 CONNECTING, 1 OPEN, 2 CLOSING, 3 CLOSED). -/
structure Conn where
  id : Nat
  readyState : Nat
deriving DecidableEq, Repr

/-- The JSON events sent over the push channel in `src/server/routes.ts`. -/
inductive Event where
  | newMessage (m : ChatMessage)
  | chatCleared
  | userMessagesDeleted (userId : Nat)
  | connected
  | pong
deriving DecidableEq, Repr

/-- The broadcast loop `wss.clients.forEach(client => { if
(client.readyState === WebSocket.OPEN) client.send(...) })`: iterates the
registry in order and sends the event to each client in OPEN state, skipping
every other client; the result is the list of deliveries performed. -/
def broadcastTo (clients : List Conn) (ev : Event) : List (Nat × Event) :=
  match clients with
  | [] => []
  | c :: cs =>
    if c.readyState = WebSocket.OPEN then (c.id, ev) :: broadcastTo cs ev
    else broadcastTo cs ev

/-- Modelled from the spec: the connection registry `wss.clients` is
maintained by the `ws` library, which is not part of this repository's
sources; per spec section 4.3 and the LiveConnection invariant, a channel is
removed from the registry when it closes (the repository's own `close`
handler only logs and adjusts a metric). -/
def removeOnClose (clients : List Conn) (id : Nat) : List Conn :=
  clients.filter (fun c => c.id != id)

/-- The shared server state the chat handlers read and write: the message
store, the Redis `chat_messages` cache entry (absent or a cached snapshot),
the WebSocket client registry, and the log of deliveries performed. -/
structure ServerState where
  store : MemStorage
  cache : Option (List ChatMessage)
  clients : List Conn
  sent : List (Nat × Event)
deriving DecidableEq, Repr

/-- One request's environment: the authenticated caller (`req.user.id` or
none), the request body's `content` field, whether each external call
(store operation, Redis get/setEx/del, RabbitMQ publish) succeeds or throws,
and the current wall-clock time. -/
structure ReqEnv where
  user : Option Nat
  content : BodyContent
  storeOk : Bool
  cacheGetOk : Bool
  cacheSetOk : Bool
  cacheDelOk : Bool
  publishOk : Bool
  now : Nat
deriving DecidableEq, Repr

/-- Response bodies relevant to the chat endpoints. -/
inductive RespBody where
  | msgs (l : List ChatMessage)
  | msg (m : ChatMessage)
  | err
  | okMsg
deriving DecidableEq, Repr

/-- An HTTP response: status code and body. -/
structure Response where
  status : Nat
  body : RespBody
deriving DecidableEq, Repr

/-- `GET /api/chat`: inside one `try` block, `redisClient.get` (a throw is
caught and answered 500), on a hit return the cached snapshot, on a miss
`storage.getChatMessages()` then `redisClient.setEx` (a throw from either is
likewise caught and answered 500), then respond 200 with the messages. -/
def getChatHandler (env : ReqEnv) (s : ServerState) : Response × ServerState :=
  if !env.cacheGetOk then (⟨500, .err⟩, s)
  else
    match s.cache with
    | some cached => (⟨200, .msgs cached⟩, s)
    | none =>
      if !env.storeOk then (⟨500, .err⟩, s)
      else
        let messages := s.store.getChatMessages
        if !env.cacheSetOk then (⟨500, .err⟩, s)
        else (⟨200, .msgs messages⟩, { s with cache := some messages })

/-- `POST /api/chat`: 401 if unauthenticated; then inside one `try` block
(whose `catch` answers 400): `insertChatMessageSchema.parse`,
`storage.createChatMessage`, `redisClient.del('chat_messages')`,
`publishTask` (throws when the RabbitMQ channel is not initialized), the
WebSocket broadcast of `new_message`, and finally the 201 response. -/
def postChatHandler (env : ReqEnv) (s : ServerState) : Response × ServerState :=
  match env.user with
  | none => (⟨401, .err⟩, s)
  | some uid =>
    match insertChatMessageSchemaParse uid env.content with
    | none => (⟨400, .err⟩, s)
    | some parsed =>
      if !env.storeOk then (⟨400, .err⟩, s)
      else
        let created := s.store.createChatMessage parsed.1 parsed.2 env.now
        let s1 : ServerState := { s with store := created.2 }
        if !env.cacheDelOk then (⟨400, .err⟩, s1)
        else
          let s2 : ServerState := { s1 with cache := none }
          if !env.publishOk then (⟨400, .err⟩, s2)
          else
            let sends := broadcastTo s2.clients (.newMessage created.1)
            (⟨201, .msg created.1⟩, { s2 with sent := s2.sent ++ sends })

/-- `DELETE /api/chat` (clear all): 401 if unauthenticated; then
`storage.clearChatMessages()` (a throw is caught and answered 500), the
broadcast of `chat_cleared`, and the 200 response. The source performs no
cache invalidation in this handler. -/
def deleteChatHandler (env : ReqEnv) (s : ServerState) : Response × ServerState :=
  match env.user with
  | none => (⟨401, .err⟩, s)
  | some _ =>
    if !env.storeOk then (⟨500, .err⟩, s)
    else
      let s1 : ServerState := { s with store := s.store.clearChatMessages }
      let sends := broadcastTo s1.clients .chatCleared
      (⟨200, .okMsg⟩, { s1 with sent := s1.sent ++ sends })

/-- `DELETE /api/chat/user` (delete own messages): 401 if unauthenticated;
then `storage.deleteUserChatMessages(req.user.id)` (a throw is caught and
answered 500), the broadcast of `user_messages_deleted`, and the 200
response. The source performs no cache invalidation in this handler. -/
def deleteUserChatHandler (env : ReqEnv) (s : ServerState) : Response × ServerState :=
  match env.user with
  | none => (⟨401, .err⟩, s)
  | some uid =>
    if !env.storeOk then (⟨500, .err⟩, s)
    else
      let s1 : ServerState := { s with store := s.store.deleteUserChatMessages uid }
      let sends := broadcastTo s1.clients (.userMessagesDeleted uid)
      (⟨200, .okMsg⟩, { s1 with sent := s1.sent ++ sends })

/-- Whether a `POST /api/chat` request fails before or at the store write:
unauthenticated, non-string content, or a store error. In every such case
nothing has been written anywhere when the failure response is produced. -/
def postFailsPreStore (env : ReqEnv) : Bool :=
  env.user.isNone || !(match env.content with | .str _ => true | _ => false) || !env.storeOk

/-- A sequence of `createChatMessage` calls `(userId, content, now)` applied
to a store in order. -/
def runAppends (s : MemStorage) : List (Nat × String × Nat) → MemStorage
  | [] => s
  | c :: rest => runAppends (s.createChatMessage c.1 c.2.1 c.2.2).2 rest

/-- The messages a sequence of `createChatMessage` calls adds to the store
when the next free id is `n`. -/
def appendedMsgs : Nat → List (Nat × String × Nat) → List ChatMessage
  | _, [] => []
  | n, c :: rest => ⟨n, c.1, c.2.1, c.2.2⟩ :: appendedMsgs (n + 1) rest

/-- Two user records that agree on everything except possibly the password. -/
def agreeExceptPassword (u v : User) : Prop :=
  u.id = v.id ∧ u.username = v.username ∧ u.email = v.email

/-! ### Helper lemmas about the stable sort used by `getChatMessages` -/

lemma orderedInsert_eq_cons_of_forall (x : ChatMessage) (l : List ChatMessage)
    (h : ∀ z ∈ l, tsLE x z) : l.orderedInsert tsLE x = x :: l := by
  cases l with
  | nil => rfl
  | cons z zs => rw [List.orderedInsert, if_pos (h z (List.mem_cons_self z zs))]

lemma filter_orderedInsert (p : ChatMessage → Bool) (x : ChatMessage)
    (l : List ChatMessage) (hs : List.Sorted tsLE l) :
    (l.orderedInsert tsLE x).filter p =
      if p x then (l.filter p).orderedInsert tsLE x else l.filter p := by
  have hp : List.Pairwise tsLE l := hs
  induction hp with
  | nil =>
    by_cases hpx : p x <;> simp [List.orderedInsert, hpx]
  | cons hrel htail ih =>
    rename_i y ys
    by_cases hxy : tsLE x y
    · rw [List.orderedInsert, if_pos hxy]
      by_cases hpx : p x
      · rw [List.filter_cons, if_pos hpx, if_pos hpx]
        refine (orderedInsert_eq_cons_of_forall x _ ?_).symm
        intro z hz
        rcases List.mem_cons.1 (List.mem_of_mem_filter hz) with h | h
        · exact h ▸ hxy
        · exact Nat.le_trans hxy (hrel z h)
      · rw [List.filter_cons, if_neg hpx, if_neg hpx]
    · rw [List.orderedInsert, if_neg hxy]
      by_cases hpy : p y
      · rw [List.filter_cons, if_pos hpy, List.filter_cons, if_pos hpy, ih htail]
        by_cases hpx : p x
        · rw [if_pos hpx, if_pos hpx, List.orderedInsert, if_neg hxy]
        · rw [if_neg hpx, if_neg hpx]
      · rw [List.filter_cons, if_neg hpy, List.filter_cons, if_neg hpy, ih htail]

lemma insertionSort_filter (p : ChatMessage → Bool) (l : List ChatMessage) :
    (l.filter p).insertionSort tsLE = (l.insertionSort tsLE).filter p := by
  induction l with
  | nil => rfl
  | cons x xs ih =>
    rw [List.insertionSort, filter_orderedInsert p x _ (List.sorted_insertionSort tsLE xs),
      List.filter_cons]
    by_cases hpx : p x
    · rw [if_pos hpx, if_pos hpx, List.insertionSort, ih]
    · rw [if_neg hpx, if_neg hpx, ih]

/-! ### Helper lemmas about sequences of `createChatMessage` calls -/

lemma runAppends_chatMessages :
    ∀ (calls : List (Nat × String × Nat)) (s : MemStorage),
      (runAppends s calls).chatMessages =
        s.chatMessages ++ appendedMsgs s.currentChatId calls
  | [], s => by simp [runAppends, appendedMsgs]
  | c :: rest, s => by
    rw [runAppends, runAppends_chatMessages rest]
    simp [MemStorage.createChatMessage, appendedMsgs]

lemma appendedMsgs_map_timestamp :
    ∀ (n : Nat) (calls : List (Nat × String × Nat)),
      (appendedMsgs n calls).map (fun m => m.timestamp) = calls.map (fun c => c.2.2)
  | _, [] => rfl
  | n, c :: rest => by
    simp [appendedMsgs, appendedMsgs_map_timestamp (n + 1) rest]

lemma appendedMsgs_id_ge :
    ∀ (n : Nat) (calls : List (Nat × String × Nat)),
      ∀ m ∈ appendedMsgs n calls, n ≤ m.id
  | _, [], m, hm => by simp [appendedMsgs] at hm
  | n, c :: rest, m, hm => by
    rcases List.mem_cons.1 hm with h | h
    · rw [h]
    · exact Nat.le_trans (Nat.le_succ n) (appendedMsgs_id_ge (n + 1) rest m h)

lemma appendedMsgs_pairwise_id :
    ∀ (n : Nat) (calls : List (Nat × String × Nat)),
      (appendedMsgs n calls).Pairwise (fun a b => a.id < b.id)
  | _, [] => List.Pairwise.nil
  | n, c :: rest => by
    refine List.Pairwise.cons ?_ (appendedMsgs_pairwise_id (n + 1) rest)
    intro b hb
    exact Nat.lt_of_lt_of_le (Nat.lt_succ_self n) (appendedMsgs_id_ge (n + 1) rest b hb)

lemma appendedMsgs_pairwise_tsLE (n : Nat) (calls : List (Nat × String × Nat))
    (hmono : List.Sorted (fun a b => a ≤ b) (calls.map (fun c => c.2.2))) :
    (appendedMsgs n calls).Pairwise tsLE := by
  have h : ((appendedMsgs n calls).map (fun m => m.timestamp)).Pairwise
      (fun a b => a ≤ b) := by
    rw [appendedMsgs_map_timestamp]
    exact hmono
  exact List.Pairwise.of_map (fun m => m.timestamp) (fun a b hab => hab) h

/-! ### Claim theorems -/

/-- C3: for every sequence of `createChatMessage` calls made at nondecreasing
wall-clock times, starting from the fresh store, `getChatMessages` returns
exactly the stored messages in insertion order (so the read is consistent
with insertion order), the ids assigned to successive appends are strictly
increasing in call order, and the returned list is sorted in nondecreasing
timestamp order with ties broken by id ascending. -/
theorem C3_append_listAll_ordered (calls : List (Nat × String × Nat))
    (hmono : List.Sorted (fun a b => a ≤ b) (calls.map (fun c => c.2.2))) :
    (runAppends MemStorage.empty calls).getChatMessages =
      (runAppends MemStorage.empty calls).chatMessages ∧
    (runAppends MemStorage.empty calls).chatMessages.Pairwise (fun a b => a.id < b.id) ∧
    (runAppends MemStorage.empty calls).getChatMessages.Pairwise
      (fun a b => a.timestamp < b.timestamp ∨ (a.timestamp = b.timestamp ∧ a.id < b.id)) := by
  have hmsgs : (runAppends MemStorage.empty calls).chatMessages = appendedMsgs 1 calls := by
    rw [runAppends_chatMessages]
    rfl
  have hts : (appendedMsgs 1 calls).Pairwise tsLE :=
    appendedMsgs_pairwise_tsLE 1 calls hmono
  have hid : (appendedMsgs 1 calls).Pairwise (fun a b => a.id < b.id) :=
    appendedMsgs_pairwise_id 1 calls
  have hsorted : List.Sorted tsLE (runAppends MemStorage.empty calls).chatMessages := by
    rw [hmsgs]
    exact hts
  have heq : (runAppends MemStorage.empty calls).getChatMessages =
      (runAppends MemStorage.empty calls).chatMessages := hsorted.insertionSort_eq
  refine ⟨heq, by rw [hmsgs]; exact hid, ?_⟩
  rw [heq, hmsgs]
  refine (hts.and hid).imp ?_
  rintro a b ⟨hle, hlt⟩
  rcases Nat.lt_or_ge a.timestamp b.timestamp with h1 | h1
  · exact Or.inl h1
  · exact Or.inr ⟨Nat.le_antisymm hle h1, hlt⟩

/-- A concrete run of three appends at times 5, 5, 7 for the C3 witness. -/
def c3calls : List (Nat × String × Nat) := [(1, "hello", 5), (2, "world", 5), (1, "x", 7)]

/-- Witness for C3 at a concrete call sequence with a timestamp tie. -/
theorem C3_append_listAll_ordered_witness :
    (runAppends MemStorage.empty c3calls).getChatMessages =
      (runAppends MemStorage.empty c3calls).chatMessages :=
  (C3_append_listAll_ordered c3calls (by decide)).1

/-- C8: for every store state, `clearChatMessages` followed by
`getChatMessages` yields the empty list, and `clearChatMessages` is
idempotent (it also succeeds on an already-empty store, being total). -/
theorem C8_clearAll_idempotent (s : MemStorage) :
    (s.clearChatMessages).getChatMessages = [] ∧
    (s.clearChatMessages).clearChatMessages = s.clearChatMessages :=
  ⟨rfl, rfl⟩

/-- C9: for every store state and author, `deleteUserChatMessages` followed
by `getChatMessages` yields exactly the previous read with that author's
messages removed (so every other author's messages keep their relative
order), contains no message of that author, and the deletion is idempotent
(in particular it succeeds when the author has zero messages). -/
theorem C9_deleteByAuthor (s : MemStorage) (a : Nat) :
    (s.deleteUserChatMessages a).getChatMessages =
      s.getChatMessages.filter (fun m => m.userId != a) ∧
    (∀ m ∈ (s.deleteUserChatMessages a).getChatMessages, m.userId ≠ a) ∧
    (s.deleteUserChatMessages a).deleteUserChatMessages a = s.deleteUserChatMessages a := by
  refine ⟨?_, ?_, ?_⟩
  · exact insertionSort_filter (fun m => m.userId != a) s.chatMessages
  · intro m hm
    have hm2 := (List.mem_insertionSort tsLE).1 hm
    have hm3 := List.mem_filter.1 hm2
    simpa using hm3.2
  · simp [MemStorage.deleteUserChatMessages, List.filter_filter]

/-- A concrete two-author store for the C9 witness. -/
def s9 : MemStorage := ⟨[⟨1, 1, "a", 3⟩, ⟨2, 2, "b", 1⟩], 3⟩

/-- Witness for C9 at a concrete store and author. -/
theorem C9_deleteByAuthor_witness :
    (s9.deleteUserChatMessages 1).getChatMessages =
      s9.getChatMessages.filter (fun m => m.userId != 1) :=
  (C9_deleteByAuthor s9 1).1

/-- C10: the list-users endpoint returns one password-free record per stored
user; two user stores that agree except on passwords produce identical
responses, so no response depends on any password value. -/
theorem C10_users_password_stripped (users1 users2 : List User)
    (h : List.Forall₂ agreeExceptPassword users1 users2) :
    getUsersHandler users1 = getUsersHandler users2 ∧
    (getUsersHandler users1).length = users1.length ∧
    ∀ u ∈ users1, stripPassword u ∈ getUsersHandler users1 := by
  refine ⟨?_, by simp [getUsersHandler], fun u hu => List.mem_map_of_mem _ hu⟩
  induction h with
  | nil => rfl
  | cons hab htail ih =>
    simp only [getUsersHandler, List.map_cons] at ih ⊢
    rw [ih]
    rcases hab with ⟨h1, h2, h3⟩
    simp [stripPassword, h1, h2, h3]

/-- Two single-user stores for the C10 witness, identical except for the
stored password. -/
def u10a : List User := [⟨1, "alice", "pw1", "alice.example"⟩]

/-- Second store of the C10 witness, with a different password. -/
def u10b : List User := [⟨1, "alice", "pw2", "alice.example"⟩]

/-- Witness for C10: the two stores produce identical responses. -/
theorem C10_users_password_stripped_witness :
    getUsersHandler u10a = getUsersHandler u10b :=
  (C10_users_password_stripped u10a u10b
    (List.Forall₂.cons ⟨rfl, rfl, rfl⟩ List.Forall₂.nil)).1

/-- A message already stored and cached for the C1 failing input. -/
def m1 : ChatMessage := ⟨1, 1, "hello", 0⟩

/-- An authenticated request environment with every external call healthy. -/
def envOkAuth : ReqEnv := ⟨some 1, .str "x", true, true, true, true, true, 5⟩

/-- Server state for C1: one stored and cached message, one open client. -/
def s1clear : ServerState := ⟨⟨[m1], 2⟩, some [m1], [⟨7, 1⟩], []⟩

/-- C1: evaluation of the clear-all handler at the failing input. The
authenticated `DELETE /api/chat` responds 200 and broadcasts `chat_cleared`,
yet the `chat_messages` cache entry still holds the pre-mutation list: the
handler never calls `redisClient.del`, so a cache get performed after the
response (and before any new set) returns the stale entry, contradicting the
claim for the clear-all (and likewise the delete-own) mutation. -/
theorem C1_clear_leaves_cache_populated :
    (deleteChatHandler envOkAuth s1clear).1.status = 200 ∧
    (deleteChatHandler envOkAuth s1clear).2.cache = some [m1] ∧
    (deleteChatHandler envOkAuth s1clear).2.sent = [(7, Event.chatCleared)] ∧
    (deleteUserChatHandler envOkAuth s1clear).2.cache = some [m1] := by
  decide

/-- An authenticated request carrying whitespace-only content. -/
def envWS : ReqEnv := ⟨some 1, .str " ", true, true, true, true, true, 4⟩

/-- An initial server state with an empty store for C2. -/
def st2 : ServerState := ⟨MemStorage.empty, none, [], []⟩

/-- C2 counterexample: an authenticated create-message request whose content
is the whitespace-only string " " is accepted with 201 and the message is
appended to the store, where the claim requires a 400 validation error and
no append. -/
theorem C2_create_counterexample :
    (postChatHandler envWS st2).1.status = 201 ∧
    (postChatHandler envWS st2).2.store.chatMessages = [⟨1, 1, " ", 4⟩] := by
  decide

/-- C2 (amended): validation rejects only a missing or non-string `content`
field (400, state unchanged); every string content — including the empty or
whitespace-only string — is accepted: the message is appended and returned
with the assigned id and the store-assigned timestamp (201). -/
theorem C2_create_validation (env : ReqEnv) (s : ServerState) (uid : Nat)
    (hauth : env.user = some uid) (hstore : env.storeOk = true)
    (hdel : env.cacheDelOk = true) (hpub : env.publishOk = true) :
    (∀ c : String, env.content = .str c →
      (postChatHandler env s).1.status = 201 ∧
      (postChatHandler env s).1.body = .msg ⟨s.store.currentChatId, uid, c, env.now⟩ ∧
      (postChatHandler env s).2.store.chatMessages =
        s.store.chatMessages ++ [⟨s.store.currentChatId, uid, c, env.now⟩]) ∧
    ((env.content = .absent ∨ env.content = .other) →
      (postChatHandler env s).1.status = 400 ∧ (postChatHandler env s).2 = s) := by
  constructor
  · intro c hc
    simp [postChatHandler, hauth, hc, insertChatMessageSchemaParse, hstore, hdel, hpub,
      MemStorage.createChatMessage]
  · rintro (hc | hc) <;>
      simp [postChatHandler, hauth, hc, insertChatMessageSchemaParse]

/-- An authenticated request carrying the empty string as content. -/
def envEmpty : ReqEnv := ⟨some 1, .str "", true, true, true, true, true, 7⟩

/-- Witness for the amended C2: the empty string is accepted and stored. -/
theorem C2_create_validation_witness :
    (postChatHandler envEmpty st2).1.status = 201 ∧
    (postChatHandler envEmpty st2).2.store.chatMessages = [⟨1, 1, "", 7⟩] := by
  have h := (C2_create_validation envEmpty st2 1 rfl rfl rfl rfl).1 "" rfl
  exact ⟨h.1, by simpa [st2, envEmpty, MemStorage.empty] using h.2.2⟩

/-- A request during a Redis outage: the cache get throws. -/
def envCacheDown : ReqEnv := ⟨none, .absent, true, false, true, true, true, 0⟩

/-- A server state with one stored message and no cache entry for C4. -/
def st4 : ServerState := ⟨⟨[⟨1, 1, "cached", 0⟩], 2⟩, none, [], []⟩

/-- C4 counterexample: when the cache get throws, the list-messages request
answers 500 even though the store is healthy and holds a message — it does
not fall through to the store, contradicting the claim. -/
theorem C4_cache_failure_counterexample :
    (getChatHandler envCacheDown st4).1 = ⟨500, .err⟩ ∧
    (getChatHandler envCacheDown st4).1.status ≠ 200 := by
  decide

/-- C4 (amended): the whole `GET /api/chat` body sits in a single `try`
whose `catch` answers 500, so a throwing cache get — and likewise a throwing
`setEx` after a successful store read — fails the request with 500 and leaves
the state unchanged; only when the cache calls succeed does a miss read the
store, populate the cache and answer 200. -/
theorem C4_cache_failure_fails_request (env : ReqEnv) (s : ServerState) :
    (env.cacheGetOk = false → getChatHandler env s = (⟨500, .err⟩, s)) ∧
    (env.cacheGetOk = true → s.cache = none → env.storeOk = true →
      env.cacheSetOk = false → getChatHandler env s = (⟨500, .err⟩, s)) ∧
    (env.cacheGetOk = true → s.cache = none → env.storeOk = true →
      env.cacheSetOk = true →
      getChatHandler env s = (⟨200, .msgs s.store.getChatMessages⟩,
        { s with cache := some s.store.getChatMessages })) := by
  refine ⟨fun h1 => ?_, fun h1 h2 h3 h4 => ?_, fun h1 h2 h3 h4 => ?_⟩ <;>
    simp_all [getChatHandler]

/-- Witness for the amended C4 at the concrete Redis-outage input. -/
theorem C4_cache_failure_fails_request_witness :
    getChatHandler envCacheDown st4 = (⟨500, .err⟩, st4) :=
  (C4_cache_failure_fails_request envCacheDown st4).1 rfl

/-- An authenticated create-message request during a RabbitMQ outage:
`publishTask` throws because the channel is not initialized. -/
def envPubDown : ReqEnv := ⟨some 1, .str "hi", true, true, true, true, false, 9⟩

/-- Server state for C5: empty store, a (stale) cache entry, one open client. -/
def st5 : ServerState := ⟨MemStorage.empty, some [], [⟨4, 1⟩], []⟩

/-- C5 counterexample: when `publishTask` throws after the store write, the
create-message request answers 400 (a failure status), yet the message was
appended to the store and the cache entry was deleted — shared state is not
as it was before the request, contradicting the claim. -/
theorem C5_failed_mutation_counterexample :
    (postChatHandler envPubDown st5).1.status = 400 ∧
    (postChatHandler envPubDown st5).2.store.chatMessages = [⟨1, 1, "hi", 9⟩] ∧
    st5.store.chatMessages = [] ∧
    (postChatHandler envPubDown st5).2.cache = none ∧
    st5.cache = some [] := by
  decide

/-- C5 (amended): a failed mutation never sends a broadcast, and a mutation
that fails before or at the store write (unauthenticated, invalid payload, or
store error — and every failure of the two delete endpoints) leaves all
shared state exactly as it was; but a create-message request that fails
after the store write (cache delete or task publish throwing) answers 400
with the new message already appended to the store. -/
theorem C5_failed_mutation_state (env : ReqEnv) (s : ServerState) :
    ((postChatHandler env s).1.status ≠ 201 →
      (postChatHandler env s).2.sent = s.sent ∧
      (postFailsPreStore env = true → (postChatHandler env s).2 = s) ∧
      (postFailsPreStore env = false →
        (postChatHandler env s).1.status = 400 ∧
        ∃ m, (postChatHandler env s).2.store.chatMessages =
          s.store.chatMessages ++ [m])) ∧
    ((deleteChatHandler env s).1.status ≠ 200 → (deleteChatHandler env s).2 = s) ∧
    ((deleteUserChatHandler env s).1.status ≠ 200 →
      (deleteUserChatHandler env s).2 = s) := by
  obtain ⟨user, content, storeOk, cgo, cso, cdo, pub, now⟩ := env
  cases user <;> cases content <;> cases storeOk <;> cases cdo <;> cases pub <;>
    simp [postChatHandler, deleteChatHandler, deleteUserChatHandler,
      insertChatMessageSchemaParse, postFailsPreStore, MemStorage.createChatMessage]

/-- Witness for the amended C5 at the RabbitMQ-outage input: the failure
response leaves the broadcast log untouched and the status is 400. -/
theorem C5_failed_mutation_state_witness :
    (postChatHandler envPubDown st5).2.sent = st5.sent ∧
    (postChatHandler envPubDown st5).1.status = 400 :=
  ⟨((C5_failed_mutation_state envPubDown st5).1 (by decide)).1,
   (((C5_failed_mutation_state envPubDown st5).1 (by decide)).2.2 (by decide)).1⟩

/-- C6: a broadcast delivers the event to exactly the registered connections
in OPEN state — a connection that is closed (or closing, or connecting)
mid-iteration is skipped as a no-op and does not prevent delivery to any
other connection — and a connection that closes is removed from the
registry: membership after `removeOnClose` is exactly prior membership with
a different id. -/
theorem C6_broadcast_open_only (clients : List Conn) (ev : Event) (k : Nat) :
    broadcastTo clients ev =
      (clients.filter (fun c => c.readyState == WebSocket.OPEN)).map
        (fun c => (c.id, ev)) ∧
    (∀ c ∈ clients, c.readyState = WebSocket.OPEN →
      (c.id, ev) ∈ broadcastTo clients ev) ∧
    (∀ c, c ∈ removeOnClose clients k ↔ c ∈ clients ∧ c.id ≠ k) := by
  have h1 : broadcastTo clients ev =
      (clients.filter (fun c => c.readyState == WebSocket.OPEN)).map
        (fun c => (c.id, ev)) := by
    induction clients with
    | nil => rfl
    | cons c cs ih =>
      by_cases hc : c.readyState = WebSocket.OPEN
      · rw [broadcastTo, if_pos hc, List.filter_cons, if_pos (by simp [hc]),
          List.map_cons, ih]
      · rw [broadcastTo, if_neg hc, List.filter_cons, if_neg (by simp [hc]), ih]
  refine ⟨h1, ?_, ?_⟩
  · intro c hc hopen
    rw [h1]
    exact List.mem_map_of_mem _ (List.mem_filter.2 ⟨hc, by simp [hopen]⟩)
  · intro c
    simp [removeOnClose, List.mem_filter]

/-- A registry of three connections for the C6 witness; connection 2 is in
CLOSED state as if it closed mid-broadcast. -/
def cl6 : List Conn := [⟨1, 1⟩, ⟨2, 3⟩, ⟨3, 1⟩]

/-- Witness for C6: the other two connections still receive the event. -/
theorem C6_broadcast_open_only_witness :
    broadcastTo cl6 Event.chatCleared =
      [(1, Event.chatCleared), (3, Event.chatCleared)] :=
  (C6_broadcast_open_only cl6 Event.chatCleared 2).1.trans (by decide)

/-- C7: every mutation request without an authenticated caller identity is
answered 401 with the server state — store, cache, registry and broadcast
log — completely unchanged. -/
theorem C7_unauthenticated_rejected (env : ReqEnv) (s : ServerState)
    (h : env.user = none) :
    postChatHandler env s = (⟨401, .err⟩, s) ∧
    deleteChatHandler env s = (⟨401, .err⟩, s) ∧
    deleteUserChatHandler env s = (⟨401, .err⟩, s) := by
  refine ⟨?_, ?_, ?_⟩ <;>
    simp [postChatHandler, deleteChatHandler, deleteUserChatHandler, h]

/-- An unauthenticated request environment for the C7 witness. -/
def env401 : ReqEnv := ⟨none, .str "hello", true, true, true, true, true, 3⟩

/-- A server state with one open client for the C7 witness. -/
def st7 : ServerState := ⟨MemStorage.empty, none, [⟨1, 1⟩], []⟩

/-- Witness for C7 at a concrete unauthenticated request. -/
theorem C7_unauthenticated_rejected_witness :
    postChatHandler env401 st7 = (⟨401, .err⟩, st7) :=
  (C7_unauthenticated_rejected env401 st7 rfl).1
